import Mathlib

/-!
Verification of the token-lifecycle, route-guard and API-proxy layers of the
swagger-general-app repository, as a shallow embedding in Lean 4.

Conventions of the embedding:
* JavaScript `undefined` / absent object fields are `Option.none`; a string
  field holding `""` is `some ""` (present but falsy).
* JavaScript truthiness of an optional string (`!s` checks) is `strTruthy`;
  truthiness of an optional number (`0` and absent are falsy) is `numTruthy`.
* `Date.now()` is an explicit `now : Nat` parameter (milliseconds); a single
  callback invocation observes a single `now`.
* The network is an explicit oracle argument (`RefreshOutcome`,
  `UpstreamOutcome`); each operation also returns the number of network
  calls it performed, so "no network call is made" is provable.
* Extra JWT claims (name, email, picture, sub, ...) that the code only ever
  carries through object spreads are modelled by the `rest` field.
-/

/-- Optional-string truthiness: JavaScript treats both an absent field and
`""` as falsy. -/
def strTruthy : Option String → Bool
  | none => false
  | some s => !(s == "")

/-- Optional-number truthiness: JavaScript treats both an absent field and
`0` as falsy. -/
def numTruthy : Option Nat → Bool
  | none => false
  | some n => !(n == 0)

/-- Embeds the `CustomJWT` interface: the Session Token Record. The four
managed fields are explicit; every other claim carried by the JWT is kept
opaque in `rest`. -/
structure CustomJWT where
  accessToken : Option String
  accessTokenExpires : Option Nat
  refreshToken : Option String
  error : Option String
  rest : List (String × String)
deriving DecidableEq, Repr

/-- Embeds the `account` object the `jwt` callback receives right after an
interactive sign-in (fields used by the code: `access_token`,
`refresh_token`, `expires_in`). -/
structure Account where
  access_token : Option String
  refresh_token : Option String
  expires_in : Nat
deriving DecidableEq, Repr

/-- Embeds the JSON body of a successful token-endpoint response
(`access_token`, optional `refresh_token`, `expires_in`). -/
structure TokenResponse where
  access_token : String
  refresh_token : Option String
  expires_in : Nat
deriving DecidableEq, Repr

/-- Oracle for one attempted refresh exchange with the identity provider:
either the response is HTTP-success and its JSON body parses
(`success`), or the response has a non-success status (`httpError`,
which the code turns into a thrown `Error` after logging), or the
transport or body parsing throws (`exception`). -/
inductive RefreshOutcome where
  | success (refreshedTokens : TokenResponse)
  | httpError
  | exception
deriving DecidableEq, Repr

/-- Embeds `refreshAccessToken`. Returns the produced token together with
the number of network calls made. The error literal is the string
`"RefreshAccessTokenError"` used by the code. All failure paths return a
record rather than raising; totality of this Lean function mirrors the
try/catch making the TypeScript function never throw past its boundary. -/
def refreshAccessToken (now : Nat) (token : CustomJWT) (outcome : RefreshOutcome) :
    CustomJWT × Nat :=
  if !strTruthy token.refreshToken then
    ({ token with
        error := some "RefreshAccessTokenError",
        accessToken := none,
        accessTokenExpires := none,
        refreshToken := none }, 0)
  else
    match outcome with
    | .success refreshedTokens =>
        ({ token with
            accessToken := some refreshedTokens.access_token,
            accessTokenExpires := some (now + refreshedTokens.expires_in * 1000),
            refreshToken :=
              if strTruthy refreshedTokens.refresh_token then
                refreshedTokens.refresh_token
              else
                token.refreshToken }, 1)
    | .httpError =>
        ({ token with
            error := some "RefreshAccessTokenError",
            accessToken := none,
            accessTokenExpires := none,
            refreshToken := none }, 1)
    | .exception =>
        ({ token with
            error := some "RefreshAccessTokenError",
            accessToken := none,
            accessTokenExpires := none,
            refreshToken := none }, 1)

/-- Embeds the fast-path guard
`customToken.accessTokenExpires && Date.now() < customToken.accessTokenExpires`:
the stored expiry must be truthy (present and nonzero) and strictly in the
future. -/
def fastPathOk (now : Nat) (expires : Option Nat) : Bool :=
  numTruthy expires &&
    match expires with
    | none => false
    | some e => decide (now < e)

/-- Embeds the `jwt` callback (materialize): stamp fresh sign-in tokens when
an `account` with a truthy `access_token` is present, then either return the
token unchanged on the fast path or delegate to `refreshAccessToken`.
Returns the produced token and the number of network calls. -/
def jwt (now : Nat) (token : CustomJWT) (account : Option Account)
    (outcome : RefreshOutcome) : CustomJWT × Nat :=
  let customToken :=
    match account with
    | some a =>
        if strTruthy a.access_token then
          { token with
              accessToken := a.access_token,
              accessTokenExpires := some (now + a.expires_in * 1000),
              refreshToken := some ((a.refresh_token).getD "") }
        else token
    | none => token
  if fastPathOk now customToken.accessTokenExpires then
    (customToken, 0)
  else
    refreshAccessToken now customToken outcome

/-- Embeds the `CustomSession` interface: the derived session view exposed
to the client. -/
structure CustomSession where
  accessToken : Option String
  error : Option String
  rest : List (String × String)
deriving DecidableEq, Repr

/-- Embeds the `session` callback: copy `accessToken` and `error` from the
JWT onto the session object. -/
def sessionCallback (s : CustomSession) (token : CustomJWT) : CustomSession :=
  { s with accessToken := token.accessToken, error := token.error }

/-- Worker for `jsSplit`: walks the character list with explicit fuel (one
unit per consumed character, so `length + 1` always suffices) and cuts at
every occurrence of the separator. -/
def jsSplitGo (sep : List Char) : Nat → List Char → List Char → List (List Char)
  | 0, acc, rest => [acc.reverse ++ rest]
  | fuel+1, acc, s =>
      if sep.isPrefixOf s && !sep.isEmpty then
        acc.reverse :: jsSplitGo sep fuel [] (s.drop sep.length)
      else
        match s with
        | [] => [acc.reverse]
        | c :: cs => jsSplitGo sep fuel (c :: acc) cs

/-- Embeds `String.prototype.split` with a nonempty string separator
(executable at the character-list level so the kernel can evaluate it). -/
def jsSplit (sep s : String) : List String :=
  (jsSplitGo sep.data (s.data.length + 1) [] s.data).map List.asString

/-- Embeds `String.prototype.startsWith` at the character-list level. -/
def startsWithStr (s pre : String) : Bool :=
  pre.data.isPrefixOf s.data

/-- Decision of the Route Guard: `allow` embeds `NextResponse.next()`,
`redirect target` embeds `NextResponse.redirect(new URL(target, req.url))`. -/
inductive GuardDecision where
  | allow
  | redirect (target : String)
deriving DecidableEq, Repr

/-- Embeds the `middleware` function (Route Guard). The session token read
by `getToken` is passed in explicitly (`none` when the cookie is absent or
does not verify); the middleware returns its decision together with the
session record, unchanged, making explicit that the decision never writes
the session. -/
def middleware (pathname : String) (token : Option CustomJWT) :
    GuardDecision × Option CustomJWT :=
  let isAuthenticated := token.isSome
  let decision :=
    if startsWithStr pathname "/api" then
      GuardDecision.allow
    else if !isAuthenticated then
      GuardDecision.redirect "/api/auth/signin"
    else
      GuardDecision.allow
  (decision, token)

/-- Extracts the bearer token the way every handler does:
`request.headers.get("authorization")?.split("Bearer ")[1]`. -/
def extractBearer (authHeader : Option String) : Option String :=
  match authHeader with
  | none => none
  | some h => (jsSplit "Bearer " h)[1]?

/-- Body of a handler response: either the JSON object with an `error`
field, or upstream JSON data passed through opaquely. -/
inductive ApiBody where
  | errorObj (msg : String)
  | jsonData (d : String)
deriving DecidableEq, Repr

/-- HTTP response produced by a handler: status code and body. -/
structure ApiResponse where
  status : Nat
  body : ApiBody
deriving DecidableEq, Repr

/-- Oracle for one upstream `fetch` in an API handler: either a response
arrived and both body reads succeed (`resp status jsonBody textBody`), or
the fetch rejected or a body read threw, with `Error` message `msg`
(`thrown msg`). -/
inductive UpstreamOutcome where
  | resp (status : Nat) (jsonBody : String) (textBody : String)
  | thrown (msg : String)
deriving DecidableEq, Repr

/-- Embeds `response.ok`: status in the range 200 to 299. -/
def responseOk (status : Nat) : Bool :=
  decide (200 ≤ status) && decide (status ≤ 299)

namespace AssistantsRoute

/-- Embeds `GET /api/assistants` (src/app/api/assistants/route.ts).
Returns the response and the number of upstream calls. -/
def GET (authHeader : Option String) (upstream : UpstreamOutcome) :
    ApiResponse × Nat :=
  if !strTruthy (extractBearer authHeader) then
    (⟨401, .errorObj "No access token provided"⟩, 0)
  else
    match upstream with
    | .resp status jsonBody textBody =>
        if !responseOk status then
          (⟨500, .errorObj ("Failed to fetch assistants: " ++ toString status
              ++ " - " ++ textBody)⟩, 1)
        else
          (⟨200, .jsonData jsonBody⟩, 1)
    | .thrown msg => (⟨500, .errorObj msg⟩, 1)

/-- Embeds `POST /api/assistants` (src/app/api/assistants/route.ts). The
incoming request body is `assistantData`; the upstream response is
forwarded with its own status code, with no `response.ok` check. -/
def POST (authHeader : Option String) (assistantData : String)
    (upstream : UpstreamOutcome) : ApiResponse × Nat :=
  if !strTruthy (extractBearer authHeader) then
    (⟨401, .errorObj "No access token provided"⟩, 0)
  else
    match upstream with
    | .resp status jsonBody _textBody => (⟨status, .jsonData jsonBody⟩, 1)
    | .thrown msg => (⟨500, .errorObj msg⟩, 1)

end AssistantsRoute

namespace AssistantRoute

/-- Embeds `GET /api/assistant` (single assistant by name). `name` is the
`name` query parameter (`none` when absent). -/
def GET (authHeader : Option String) (name : Option String)
    (upstream : UpstreamOutcome) : ApiResponse × Nat :=
  if !strTruthy (extractBearer authHeader) then
    (⟨401, .errorObj "No access token provided"⟩, 0)
  else if !strTruthy name then
    (⟨400, .errorObj "Assistant name is required"⟩, 0)
  else
    match upstream with
    | .resp status jsonBody textBody =>
        if !responseOk status then
          (⟨500, .errorObj ("Failed to fetch assistant: " ++ toString status
              ++ " - " ++ textBody)⟩, 1)
        else
          (⟨200, .jsonData jsonBody⟩, 1)
    | .thrown msg => (⟨500, .errorObj msg⟩, 1)

end AssistantRoute

namespace ToolsRoute

/-- Embeds `GET /api/tools`. A non-success upstream response raises
`Error("Failed to fetch tools")`, caught into a 500 response. -/
def GET (authHeader : Option String) (upstream : UpstreamOutcome) :
    ApiResponse × Nat :=
  if !strTruthy (extractBearer authHeader) then
    (⟨401, .errorObj "No access token provided"⟩, 0)
  else
    match upstream with
    | .resp status jsonBody _textBody =>
        if !responseOk status then
          (⟨500, .errorObj "Failed to fetch tools"⟩, 1)
        else
          (⟨200, .jsonData jsonBody⟩, 1)
    | .thrown msg => (⟨500, .errorObj msg⟩, 1)

end ToolsRoute

namespace IndexesRoute

/-- Embeds `GET /api/indexes` (src/app/api/indexes/route.ts). A non-success
upstream response raises `Error("Failed to fetch indexes")`, caught into a
500 response. -/
def GET (authHeader : Option String) (upstream : UpstreamOutcome) :
    ApiResponse × Nat :=
  if !strTruthy (extractBearer authHeader) then
    (⟨401, .errorObj "No access token provided"⟩, 0)
  else
    match upstream with
    | .resp status jsonBody _textBody =>
        if !responseOk status then
          (⟨500, .errorObj "Failed to fetch indexes"⟩, 1)
        else
          (⟨200, .jsonData jsonBody⟩, 1)
    | .thrown msg => (⟨500, .errorObj msg⟩, 1)

end IndexesRoute

/-- Session object as seen by one render of `RefreshErrorHandler` via
`useSession`. `id` models the JavaScript object identity: `useSession` may
hand out a fresh object (new `id`) carrying the same `error` value, e.g.
after a session refetch. The `useEffect` dependency array `[session]`
compares by `Object.is`, i.e. two session objects are the same dependency
value exactly when the whole `SessionObj` (including `id`) coincides. -/
structure SessionObj where
  id : Nat
  error : Option String
deriving DecidableEq, Repr

/-- Guard inside the effect of `RefreshErrorHandler`:
`session && "error" in session && session.error === "RefreshAccessTokenError"`. -/
def isRefreshError : Option SessionObj → Bool
  | none => false
  | some s => s.error == some "RefreshAccessTokenError"

/-- Number of `signIn("microsoft-entra-id")` calls `RefreshErrorHandler`
makes over a trace of rendered sessions: React runs the effect on the
first render and whenever the dependency `[session]` changed from the
previous render, and the effect calls `signIn` when `isRefreshError`
holds. `prev` is the previously rendered session (`none` for no previous
render). -/
def signInCalls : Option (Option SessionObj) → List (Option SessionObj) → Nat
  | _, [] => 0
  | prev, s :: rest =>
      (if prev ≠ some s && isRefreshError s then 1 else 0) +
        signInCalls (some s) rest

/-- Number of transitions of the rendered session into the
`RefreshAccessTokenError` state along a trace: renders where the error
holds but did not hold at the previous render. `prevErr` records whether
the previous render was in the error state. -/
def errorTransitions : Bool → List (Option SessionObj) → Nat
  | _, [] => 0
  | prevErr, s :: rest =>
      (if !prevErr && isRefreshError s then 1 else 0) +
        errorTransitions (isRefreshError s) rest

/-- Environment assumption on one refresh-exchange outcome: a successful
token-endpoint response carries a positive `expires_in`. -/
def goodOutcome : RefreshOutcome → Prop
  | .success refreshedTokens => 0 < refreshedTokens.expires_in
  | .httpError => True
  | .exception => True

/-- Token NextAuth hands to the `jwt` callback at an interactive sign-in:
a newly created JWT holding only the profile claims (carried in `rest`),
with none of the four managed fields set. -/
def freshToken (rest : List (String × String)) : CustomJWT :=
  ⟨none, none, none, none, rest⟩

/-- Session Token Records reachable by completed lifecycle transitions,
paired with the `Date.now()` at which the last transition completed.
`init` is the initial sign-in (NextAuth invokes the `jwt` callback on a
fresh profile token with the `account` present; the provider issues a
truthy `access_token` with positive `expires_in`); `step` is any later
invocation of the `jwt` callback without an `account` (fast path or
refresh), under the `goodOutcome` environment assumption. -/
inductive ReachableAt : CustomJWT → Nat → Prop where
  | init (rest : List (String × String)) (now : Nat) (a : Account)
      (outcome : RefreshOutcome)
      (ha : strTruthy a.access_token = true) (hexp : 0 < a.expires_in) :
      ReachableAt (jwt now (freshToken rest) (some a) outcome).1 now
  | step (t : CustomJWT) (prev now : Nat) (outcome : RefreshOutcome)
      (hr : ReachableAt t prev) (hout : goodOutcome outcome) :
      ReachableAt (jwt now t none outcome).1 now

/-- Validity of a record at a moment: it carries an `accessToken` and its
`accessTokenExpires` is set and strictly in the future. -/
def validAt (t : CustomJWT) (now : Nat) : Bool :=
  t.accessToken.isSome &&
    match t.accessTokenExpires with
    | none => false
    | some e => decide (now < e)

/-- Inductive strengthening of the lifecycle invariant: a reachable record
is either valid with `error` unset, or it is the failed-refresh record
(error set, every credential field cleared). -/
def strongInv (t : CustomJWT) (now : Nat) : Prop :=
  (validAt t now = true ∧ t.error = none) ∨
    (t.error = some "RefreshAccessTokenError" ∧ t.accessToken = none ∧
      t.accessTokenExpires = none ∧ t.refreshToken = none)

example :
    (refreshAccessToken 5 ⟨none, some 3, some "r1", none, []⟩
      (.success ⟨"a2", none, 3600⟩)).1 =
    ⟨some "a2", some 3600005, some "r1", none, []⟩ := by decide

example : extractBearer (some "Bearer tok123") = some "tok123" := by decide

example : strTruthy (extractBearer (some "Bearer ")) = false := by decide

example :
    AssistantsRoute.POST (some "Bearer t") "body" (.resp 404 "nf" "x") =
    (⟨404, .jsonData "nf"⟩, 1) := by decide

example :
    (middleware "/dashboard" none).1 = .redirect "/api/auth/signin" := by decide

theorem strTruthy_isSome {o : Option String} (h : strTruthy o = true) :
    o.isSome = true := by
  cases o with
  | none => simp [strTruthy] at h
  | some s => rfl

theorem refreshAccessToken_rest (now : Nat) (token : CustomJWT)
    (outcome : RefreshOutcome) :
    (refreshAccessToken now token outcome).1.rest = token.rest := by
  unfold refreshAccessToken
  split
  · rfl
  · cases outcome <;> rfl

/-- C10: every branch of the token lifecycle (sign-in update, fast path,
refresh success, both refresh-failure paths) carries all JWT fields other
than `accessToken`, `accessTokenExpires`, `refreshToken` and `error` (the
`rest` claims, e.g. the user identity) over from the input token to the
output token unchanged. -/
theorem jwtPreservesOtherClaims (now : Nat) (token : CustomJWT)
    (account : Option Account) (outcome : RefreshOutcome) :
    (jwt now token account outcome).1.rest = token.rest := by
  unfold jwt
  cases account with
  | none =>
      dsimp only
      split
      · rfl
      · exact refreshAccessToken_rest now token outcome
  | some a =>
      dsimp only
      split
      · split
        · rfl
        · exact refreshAccessToken_rest now _ outcome
      · split
        · rfl
        · exact refreshAccessToken_rest now token outcome

/-- C8: when the stored `accessTokenExpires` is set and strictly in the
future and no fresh sign-in account accompanies the invocation, the `jwt`
callback returns the record unchanged and makes no network call. -/
theorem fastPathReturnsUnchanged (now : Nat) (token : CustomJWT)
    (outcome : RefreshOutcome) (e : Nat)
    (hexp : token.accessTokenExpires = some e) (hfut : now < e) :
    jwt now token none outcome = (token, 0) := by
  unfold jwt
  dsimp only
  have hfp : fastPathOk now token.accessTokenExpires = true := by
    rw [hexp]
    simp only [fastPathOk, numTruthy, Bool.and_eq_true, Bool.not_eq_true',
      beq_eq_false_iff_ne, ne_eq, decide_eq_true_eq]
    omega
  rw [hfp]
  simp

theorem fastPathReturnsUnchanged_witness :
    jwt 10 ⟨some "a", some 99, some "r", none, []⟩ (none : Option Account)
      .exception = (⟨some "a", some 99, some "r", none, []⟩, 0) :=
  fastPathReturnsUnchanged 10 _ _ 99 rfl (by decide)

/-- C4: `refreshAccessToken` never throws past its boundary (it is a total
function into records); with an absent or empty `refreshToken` it returns
the failed record with every credential field cleared and makes zero
network calls, and on a non-success HTTP response or a thrown
transport/parse exception it returns the same failed record after its one
network call. -/
theorem refreshFailurePaths (now : Nat) (token : CustomJWT)
    (outcome : RefreshOutcome) :
    (strTruthy token.refreshToken = false →
      refreshAccessToken now token outcome =
        ({ token with
            error := some "RefreshAccessTokenError",
            accessToken := none,
            accessTokenExpires := none,
            refreshToken := none }, 0)) ∧
    (strTruthy token.refreshToken = true →
      (outcome = .httpError ∨ outcome = .exception) →
      refreshAccessToken now token outcome =
        ({ token with
            error := some "RefreshAccessTokenError",
            accessToken := none,
            accessTokenExpires := none,
            refreshToken := none }, 1)) := by
  constructor
  · intro h
    unfold refreshAccessToken
    simp [h]
  · intro h hout
    unfold refreshAccessToken
    rcases hout with hout | hout <;> subst hout <;> simp [h]

theorem refreshFailurePaths_witness :
    refreshAccessToken 7 ⟨some "a", some 1, none, none, [("sub", "u")]⟩
        .exception =
      (⟨none, none, none, some "RefreshAccessTokenError", [("sub", "u")]⟩, 0) ∧
    refreshAccessToken 7 ⟨some "a", some 1, some "r", none, [("sub", "u")]⟩
        .httpError =
      (⟨none, none, none, some "RefreshAccessTokenError", [("sub", "u")]⟩, 1) :=
  ⟨(refreshFailurePaths 7 _ _).1 (by decide),
   (refreshFailurePaths 7 _ _).2 (by decide) (Or.inl rfl)⟩

/-- C2 counterexample: a successful refresh does not clear a previously set
`error` — the success branch spreads the old token and never touches the
`error` field, so the claim that `error` is cleared fails on this input. -/
theorem refreshSuccessClearsErr_counterexample :
    ¬ ((refreshAccessToken 0
        ⟨none, some 1, some "r1", some "RefreshAccessTokenError", []⟩
        (.success ⟨"a2", none, 3600⟩)).1.error = none) := by decide

/-- C2 (amended): on a successful refresh exchange (possible only with a
truthy stored `refreshToken`), the result carries the new `access_token`,
`accessTokenExpires = now + expires_in * 1000`, the rotated refresh token
when the response carries a truthy one and otherwise the previous
`refreshToken`, and the `error` field retained unchanged from the input
record (hence clear exactly when it was already clear). -/
theorem refreshSuccessUpdatesRecord (now : Nat) (token : CustomJWT)
    (body : TokenResponse) (hrt : strTruthy token.refreshToken = true) :
    (refreshAccessToken now token (.success body)).1.accessToken =
        some body.access_token ∧
    (refreshAccessToken now token (.success body)).1.accessTokenExpires =
        some (now + body.expires_in * 1000) ∧
    (refreshAccessToken now token (.success body)).1.refreshToken =
        (if strTruthy body.refresh_token then body.refresh_token
         else token.refreshToken) ∧
    (refreshAccessToken now token (.success body)).1.error = token.error ∧
    (refreshAccessToken now token (.success body)).2 = 1 := by
  unfold refreshAccessToken
  simp [hrt]

theorem refreshSuccessUpdatesRecord_witness :
    (refreshAccessToken 5 ⟨none, some 3, some "r1", none, []⟩
        (.success ⟨"a2", none, 3600⟩)).1.accessToken = some "a2" ∧
    (refreshAccessToken 5 ⟨none, some 3, some "r1", none, []⟩
        (.success ⟨"a2", none, 3600⟩)).1.accessTokenExpires =
      some (5 + 3600 * 1000) ∧
    (refreshAccessToken 5 ⟨none, some 3, some "r1", none, []⟩
        (.success ⟨"a2", none, 3600⟩)).1.refreshToken =
      (if strTruthy (none : Option String) then none else some "r1") ∧
    (refreshAccessToken 5 ⟨none, some 3, some "r1", none, []⟩
        (.success ⟨"a2", none, 3600⟩)).1.error = none ∧
    (refreshAccessToken 5 ⟨none, some 3, some "r1", none, []⟩
        (.success ⟨"a2", none, 3600⟩)).2 = 1 :=
  refreshSuccessUpdatesRecord 5 ⟨none, some 3, some "r1", none, []⟩
    ⟨"a2", none, 3600⟩ (by decide)

/-- C3 counterexample: the sign-in branch of the `jwt` callback does not
clear a previously set `error` — it spreads the old token and only writes
the three credential fields, so the claim that a prior error is cleared
fails on this input. -/
theorem signInClearsErr_counterexample :
    ¬ ((jwt 0 ⟨none, none, none, some "RefreshAccessTokenError", []⟩
        (some ⟨some "a1", some "r1", 3600⟩) .exception).1.error = none) := by
  decide

/-- C3 (amended): immediately after sign-in (an `account` with a truthy
`access_token` and positive `expires_in` present), the `jwt` callback
returns a record with `accessTokenExpires = now + expires_in * 1000`, the
issued refresh token stored (defaulting to `""` when absent), the issued
access token stored — and any prior `error` retained unchanged rather than
cleared. -/
theorem signInMaterialize (now : Nat) (token : CustomJWT) (a : Account)
    (outcome : RefreshOutcome) (ha : strTruthy a.access_token = true)
    (hexp : 0 < a.expires_in) :
    (jwt now token (some a) outcome).1.accessToken = a.access_token ∧
    (jwt now token (some a) outcome).1.accessTokenExpires =
        some (now + a.expires_in * 1000) ∧
    (jwt now token (some a) outcome).1.refreshToken =
        some (a.refresh_token.getD "") ∧
    (jwt now token (some a) outcome).1.error = token.error ∧
    (jwt now token (some a) outcome).2 = 0 := by
  unfold jwt
  dsimp only
  rw [ha]
  have hfp : fastPathOk now (some (now + a.expires_in * 1000)) = true := by
    simp only [fastPathOk, numTruthy, Bool.and_eq_true, Bool.not_eq_true',
      beq_eq_false_iff_ne, ne_eq, decide_eq_true_eq]
    omega
  simp [hfp]

theorem signInMaterialize_witness :
    (jwt 4 ⟨none, none, none, none, []⟩ (some ⟨some "a1", none, 3600⟩)
        .exception).1.accessToken = some "a1" ∧
    (jwt 4 ⟨none, none, none, none, []⟩ (some ⟨some "a1", none, 3600⟩)
        .exception).1.accessTokenExpires = some (4 + 3600 * 1000) ∧
    (jwt 4 ⟨none, none, none, none, []⟩ (some ⟨some "a1", none, 3600⟩)
        .exception).1.refreshToken = some ((none : Option String).getD "") ∧
    (jwt 4 ⟨none, none, none, none, []⟩ (some ⟨some "a1", none, 3600⟩)
        .exception).1.error = none ∧
    (jwt 4 ⟨none, none, none, none, []⟩ (some ⟨some "a1", none, 3600⟩)
        .exception).2 = 0 :=
  signInMaterialize 4 ⟨none, none, none, none, []⟩ ⟨some "a1", none, 3600⟩
    .exception (by decide) (by decide)

example :
    (jwt 5 ⟨none, none, none, none, [("sub", "u")]⟩
      (some ⟨some "a1", some "r1", 3600⟩) .exception) =
    (⟨some "a1", some 3600005, some "r1", none, [("sub", "u")]⟩, 0) := by decide

/-- C6: the Route Guard allows every request whose path is under the API
prefix regardless of session state; otherwise it redirects to the sign-in
entry point when no session token is present and allows the request when
one is; and in every case it returns the session record unchanged. -/
theorem routeGuardDecision (pathname : String) (token : Option CustomJWT) :
    (startsWithStr pathname "/api" = true →
      (middleware pathname token).1 = .allow) ∧
    (startsWithStr pathname "/api" = false → token = none →
      (middleware pathname token).1 = .redirect "/api/auth/signin") ∧
    (startsWithStr pathname "/api" = false → token.isSome = true →
      (middleware pathname token).1 = .allow) ∧
    (middleware pathname token).2 = token := by
  refine ⟨?_, ?_, ?_, rfl⟩
  · intro h
    simp [middleware, h]
  · intro h hnone
    subst hnone
    simp [middleware, h]
  · intro h hsome
    simp [middleware, h, hsome]

theorem routeGuardDecision_witness :
    (middleware "/api/tools" none).1 = .allow ∧
    (middleware "/dashboard" none).1 = .redirect "/api/auth/signin" ∧
    (middleware "/dashboard" (some ⟨none, none, none, none, []⟩)).1 =
      .allow ∧
    (middleware "/dashboard" none).2 = none :=
  ⟨(routeGuardDecision "/api/tools" none).1 (by decide),
   (routeGuardDecision "/dashboard" none).2.1 (by decide) rfl,
   (routeGuardDecision "/dashboard" (some ⟨none, none, none, none, []⟩)).2.2.1
     (by decide) rfl,
   (routeGuardDecision "/dashboard" none).2.2.2⟩

/-- C9: on each of the five endpoints, a request whose Authorization header
yields no bearer access token gets HTTP 401 with body
`{error: "No access token provided"}` and no upstream call is made. -/
theorem missingBearerRejected (authHeader : Option String)
    (name : Option String) (assistantData : String)
    (upstream : UpstreamOutcome)
    (h : strTruthy (extractBearer authHeader) = false) :
    AssistantsRoute.GET authHeader upstream =
      (⟨401, .errorObj "No access token provided"⟩, 0) ∧
    AssistantsRoute.POST authHeader assistantData upstream =
      (⟨401, .errorObj "No access token provided"⟩, 0) ∧
    AssistantRoute.GET authHeader name upstream =
      (⟨401, .errorObj "No access token provided"⟩, 0) ∧
    ToolsRoute.GET authHeader upstream =
      (⟨401, .errorObj "No access token provided"⟩, 0) ∧
    IndexesRoute.GET authHeader upstream =
      (⟨401, .errorObj "No access token provided"⟩, 0) := by
  unfold AssistantsRoute.GET AssistantsRoute.POST AssistantRoute.GET
    ToolsRoute.GET IndexesRoute.GET
  simp [h]

theorem missingBearerRejected_witness :
    AssistantsRoute.GET (some "Token abc") (.resp 200 "d" "t") =
      (⟨401, .errorObj "No access token provided"⟩, 0) ∧
    AssistantsRoute.POST (some "Token abc") "payload" (.resp 200 "d" "t") =
      (⟨401, .errorObj "No access token provided"⟩, 0) ∧
    AssistantRoute.GET (some "Token abc") (some "n") (.resp 200 "d" "t") =
      (⟨401, .errorObj "No access token provided"⟩, 0) ∧
    ToolsRoute.GET (some "Token abc") (.resp 200 "d" "t") =
      (⟨401, .errorObj "No access token provided"⟩, 0) ∧
    IndexesRoute.GET (some "Token abc") (.resp 200 "d" "t") =
      (⟨401, .errorObj "No access token provided"⟩, 0) :=
  missingBearerRejected (some "Token abc") (some "n") "payload"
    (.resp 200 "d" "t") (by decide)

/-- C5 counterexample: `POST /api/assistants` does not surface an upstream
non-success response as HTTP 500 — it forwards the upstream status code
(here 404) and JSON body unchanged, because the handler never checks
`response.ok`. -/
theorem upstreamNonSuccess500_counterexample :
    (AssistantsRoute.POST (some "Bearer t") "payload"
      (.resp 404 "nf" "x")).1.status ≠ 500 := by decide

/-- C5 (amended): the four GET endpoints surface an upstream non-success
response or a thrown exception as HTTP 500 with body `{error: message}`;
`POST /api/assistants` surfaces only thrown exceptions as HTTP 500 and
otherwise forwards the upstream status code and JSON body unchanged,
including non-success statuses. -/
theorem upstreamErrorHandling (authHeader : Option String)
    (name : Option String) (assistantData jsonBody textBody msg : String)
    (status : Nat) (hauth : strTruthy (extractBearer authHeader) = true)
    (hname : strTruthy name = true) (hnotOk : responseOk status = false) :
    AssistantsRoute.GET authHeader (.resp status jsonBody textBody) =
      (⟨500, .errorObj ("Failed to fetch assistants: " ++ toString status
          ++ " - " ++ textBody)⟩, 1) ∧
    AssistantsRoute.GET authHeader (.thrown msg) =
      (⟨500, .errorObj msg⟩, 1) ∧
    AssistantRoute.GET authHeader name (.resp status jsonBody textBody) =
      (⟨500, .errorObj ("Failed to fetch assistant: " ++ toString status
          ++ " - " ++ textBody)⟩, 1) ∧
    AssistantRoute.GET authHeader name (.thrown msg) =
      (⟨500, .errorObj msg⟩, 1) ∧
    ToolsRoute.GET authHeader (.resp status jsonBody textBody) =
      (⟨500, .errorObj "Failed to fetch tools"⟩, 1) ∧
    ToolsRoute.GET authHeader (.thrown msg) =
      (⟨500, .errorObj msg⟩, 1) ∧
    IndexesRoute.GET authHeader (.resp status jsonBody textBody) =
      (⟨500, .errorObj "Failed to fetch indexes"⟩, 1) ∧
    IndexesRoute.GET authHeader (.thrown msg) =
      (⟨500, .errorObj msg⟩, 1) ∧
    AssistantsRoute.POST authHeader assistantData
        (.resp status jsonBody textBody) =
      (⟨status, .jsonData jsonBody⟩, 1) ∧
    AssistantsRoute.POST authHeader assistantData (.thrown msg) =
      (⟨500, .errorObj msg⟩, 1) := by
  unfold AssistantsRoute.GET AssistantsRoute.POST AssistantRoute.GET
    ToolsRoute.GET IndexesRoute.GET
  simp [hauth, hname, hnotOk]

theorem upstreamErrorHandling_witness :
    AssistantsRoute.GET (some "Bearer t") (.resp 404 "j" "x") =
      (⟨500, .errorObj ("Failed to fetch assistants: " ++ toString 404
          ++ " - " ++ "x")⟩, 1) ∧
    AssistantsRoute.GET (some "Bearer t") (.thrown "m") =
      (⟨500, .errorObj "m"⟩, 1) ∧
    AssistantRoute.GET (some "Bearer t") (some "n") (.resp 404 "j" "x") =
      (⟨500, .errorObj ("Failed to fetch assistant: " ++ toString 404
          ++ " - " ++ "x")⟩, 1) ∧
    AssistantRoute.GET (some "Bearer t") (some "n") (.thrown "m") =
      (⟨500, .errorObj "m"⟩, 1) ∧
    ToolsRoute.GET (some "Bearer t") (.resp 404 "j" "x") =
      (⟨500, .errorObj "Failed to fetch tools"⟩, 1) ∧
    ToolsRoute.GET (some "Bearer t") (.thrown "m") =
      (⟨500, .errorObj "m"⟩, 1) ∧
    IndexesRoute.GET (some "Bearer t") (.resp 404 "j" "x") =
      (⟨500, .errorObj "Failed to fetch indexes"⟩, 1) ∧
    IndexesRoute.GET (some "Bearer t") (.thrown "m") =
      (⟨500, .errorObj "m"⟩, 1) ∧
    AssistantsRoute.POST (some "Bearer t") "payload" (.resp 404 "j" "x") =
      (⟨404, .jsonData "j"⟩, 1) ∧
    AssistantsRoute.POST (some "Bearer t") "payload" (.thrown "m") =
      (⟨500, .errorObj "m"⟩, 1) :=
  upstreamErrorHandling (some "Bearer t") (some "n") "payload" "j" "x" "m"
    404 (by decide) (by decide) (by decide)

/-- C7 counterexample: the effect in `RefreshErrorHandler` is keyed to the
session object, not to the error value, so two consecutive renders that
carry the same persisting `RefreshAccessTokenError` in two distinct
session objects (e.g. after a session refetch) trigger `signIn` twice for
a single transition into the error state. -/
theorem signInOncePerTransition_counterexample :
    signInCalls none
        [some ⟨0, some "RefreshAccessTokenError"⟩,
         some ⟨1, some "RefreshAccessTokenError"⟩] = 2 ∧
    errorTransitions false
        [some ⟨0, some "RefreshAccessTokenError"⟩,
         some ⟨1, some "RefreshAccessTokenError"⟩] = 1 ∧
    signInCalls none
        [some ⟨0, some "RefreshAccessTokenError"⟩,
         some ⟨1, some "RefreshAccessTokenError"⟩] ≠
      errorTransitions false
        [some ⟨0, some "RefreshAccessTokenError"⟩,
         some ⟨1, some "RefreshAccessTokenError"⟩] := by decide

/-- C7 (amended): along every render trace, `RefreshErrorHandler` triggers
at least one interactive sign-in per transition of the derived session
into the `RefreshAccessTokenError` state; because the effect is keyed to
the session object rather than the error value, it may additionally
re-trigger while the error persists whenever the session object identity
changes. -/
theorem signInPerErrTransition (trace : List (Option SessionObj))
    (prev : Option (Option SessionObj)) :
    errorTransitions
        (match prev with
          | none => false
          | some s => isRefreshError s) trace ≤
      signInCalls prev trace := by
  induction trace generalizing prev with
  | nil => simp [errorTransitions, signInCalls]
  | cons s rest ih =>
      simp only [errorTransitions, signInCalls]
      have htail := ih (some s)
      apply Nat.add_le_add _ htail
      by_cases herr : isRefreshError s = true
      · by_cases hprev : prev = some s
        · subst hprev
          simp [herr]
        · simp only [herr, hprev]
          split <;> simp [hprev]
      · simp [herr]

theorem signInPerErrTransition_witness :
    errorTransitions
        (match (none : Option (Option SessionObj)) with
          | none => false
          | some s => isRefreshError s)
        [some ⟨0, none⟩, some ⟨1, some "RefreshAccessTokenError"⟩] ≤
      signInCalls none
        [some ⟨0, none⟩, some ⟨1, some "RefreshAccessTokenError"⟩] :=
  signInPerErrTransition
    [some ⟨0, none⟩, some ⟨1, some "RefreshAccessTokenError"⟩] none

theorem jwt_none_eq (now : Nat) (t : CustomJWT) (outcome : RefreshOutcome) :
    jwt now t none outcome =
      if fastPathOk now t.accessTokenExpires then (t, 0)
      else refreshAccessToken now t outcome := rfl

theorem strongInv_init (rest : List (String × String)) (now : Nat)
    (a : Account) (outcome : RefreshOutcome)
    (ha : strTruthy a.access_token = true) (hexp : 0 < a.expires_in) :
    strongInv (jwt now (freshToken rest) (some a) outcome).1 now := by
  unfold jwt freshToken
  dsimp only
  rw [ha]
  have hfp : fastPathOk now (some (now + a.expires_in * 1000)) = true := by
    simp only [fastPathOk, numTruthy, Bool.and_eq_true, Bool.not_eq_true',
      beq_eq_false_iff_ne, ne_eq, decide_eq_true_eq]
    omega
  simp only [if_true, hfp]
  left
  refine ⟨?_, rfl⟩
  simp only [validAt, strTruthy_isSome ha, Bool.true_and, decide_eq_true_eq]
  omega

theorem strongInv_step (t : CustomJWT) (prev now : Nat)
    (outcome : RefreshOutcome) (h : strongInv t prev)
    (hout : goodOutcome outcome) :
    strongInv (jwt now t none outcome).1 now := by
  obtain ⟨aT, aE, rT, eR, rs⟩ := t
  rw [jwt_none_eq]
  rcases h with ⟨hv, he⟩ | ⟨he, hat, hex, hrt⟩
  · have hsome : aT.isSome = true := by
      simp only [validAt, Bool.and_eq_true] at hv
      exact hv.1
    have he2 : eR = none := he
    subst he2
    by_cases hfp : fastPathOk now aE = true
    · simp only [hfp, if_true]
      cases aE with
      | none => simp [fastPathOk, numTruthy] at hfp
      | some e =>
          have hlt : now < e := by
            simp only [fastPathOk, numTruthy, Bool.and_eq_true,
              decide_eq_true_eq] at hfp
            exact hfp.2
          left
          refine ⟨?_, rfl⟩
          simp [validAt, hsome, hlt]
    · rw [Bool.not_eq_true] at hfp
      simp only [hfp, Bool.false_eq_true, if_false]
      unfold refreshAccessToken
      by_cases hrt2 : strTruthy rT = true
      · simp only [hrt2, Bool.not_true, Bool.false_eq_true, if_false]
        cases outcome with
        | success b =>
            left
            refine ⟨?_, rfl⟩
            have hb : 0 < b.expires_in := hout
            simp only [validAt, Option.isSome_some, Bool.true_and,
              decide_eq_true_eq]
            omega
        | httpError => right; exact ⟨rfl, rfl, rfl, rfl⟩
        | exception => right; exact ⟨rfl, rfl, rfl, rfl⟩
      · rw [Bool.not_eq_true] at hrt2
        simp only [hrt2, Bool.not_false, if_true]
        right
        exact ⟨rfl, rfl, rfl, rfl⟩
  · have hat2 : aT = none := hat
    have hex2 : aE = none := hex
    have hrt2 : rT = none := hrt
    subst hat2 hex2 hrt2
    have hfp : fastPathOk now (none : Option Nat) = false := rfl
    simp only [hfp, Bool.false_eq_true, if_false]
    unfold refreshAccessToken
    simp only [strTruthy, Bool.not_false, if_true]
    right
    exact ⟨rfl, rfl, rfl, rfl⟩

theorem strongInv_reachable {t : CustomJWT} {now : Nat}
    (h : ReachableAt t now) : strongInv t now := by
  induction h with
  | init rest now a outcome ha hexp => exact strongInv_init rest now a outcome ha hexp
  | step t prev now outcome hr hout ih => exact strongInv_step t prev now outcome ih hout

/-- C1: after every completed lifecycle transition (initial sign-in,
fast-path materialization, successful refresh, failed refresh, starting
from the fresh sign-in token and with the provider issuing positive
`expires_in` values), exactly one of the two holds of the resulting
record at the transition moment: it carries an `accessToken` with
`accessTokenExpires` in the future and `error` unset, or
`error = "RefreshAccessTokenError"` and it is not valid — stated as the
two characterizing equivalences. -/
theorem tokenLifecycleInvariant (t : CustomJWT) (now : Nat)
    (h : ReachableAt t now) :
    (validAt t now = true ↔ t.error = none) ∧
    (validAt t now = false ↔ t.error = some "RefreshAccessTokenError") := by
  rcases strongInv_reachable h with ⟨hv, he⟩ | ⟨he, hat, hex, hrt⟩
  · rw [hv, he]
    constructor
    · simp
    · simp
  · have hva : validAt t now = false := by
      simp [validAt, hat]
    rw [hva, he]
    constructor
    · simp
    · simp

theorem tokenLifecycleInvariant_witness :
    (validAt (jwt 1000 (freshToken []) (some ⟨some "atk", some "rtk", 3600⟩)
        RefreshOutcome.exception).1 1000 = true ↔
      (jwt 1000 (freshToken []) (some ⟨some "atk", some "rtk", 3600⟩)
        RefreshOutcome.exception).1.error = none) ∧
    (validAt (jwt 1000 (freshToken []) (some ⟨some "atk", some "rtk", 3600⟩)
        RefreshOutcome.exception).1 1000 = false ↔
      (jwt 1000 (freshToken []) (some ⟨some "atk", some "rtk", 3600⟩)
        RefreshOutcome.exception).1.error =
        some "RefreshAccessTokenError") :=
  tokenLifecycleInvariant _ 1000
    (ReachableAt.init [] 1000 ⟨some "atk", some "rtk", 3600⟩ .exception
      (by decide) (by decide))
